import Mathlib

/-!
Verification development for the RyokanDB repository.

The pipeline under `src/` scrapes a paginated listing site
(`generate_db_ryokans.py`), resolves coordinates for records of a persisted
catalog (`ryokan_gps.py`) and renders a map (`ryokan_map.py`, presentation
layer, out of scope).  Strings are embedded as `List Char`; Python's `None`
becomes `Option`; a Python exception becomes `Except.error ()`; machine
floats that no claim compares are embedded as exact rationals.
-/

/-! ### Text normalization (`clean_text`, generate_db_ryokans.py lines 27-52) -/

/-- Modelled from the Python standard library collaborator
`unicodedata.normalize("NFKD", ·)`, restricted to the characters this
development exercises: precomposed Latin-1 letters decompose into their base
letter followed by a combining mark; every other character is its own
decomposition. -/
def nfkdChar (c : Char) : List Char :=
  match c.toNat with
  | 0xE0 => [Char.ofNat 0x61, Char.ofNat 0x300]
  | 0xE1 => [Char.ofNat 0x61, Char.ofNat 0x301]
  | 0xE2 => [Char.ofNat 0x61, Char.ofNat 0x302]
  | 0xE4 => [Char.ofNat 0x61, Char.ofNat 0x308]
  | 0xE7 => [Char.ofNat 0x63, Char.ofNat 0x327]
  | 0xE8 => [Char.ofNat 0x65, Char.ofNat 0x300]
  | 0xE9 => [Char.ofNat 0x65, Char.ofNat 0x301]
  | 0xEA => [Char.ofNat 0x65, Char.ofNat 0x302]
  | 0xEB => [Char.ofNat 0x65, Char.ofNat 0x308]
  | 0xEE => [Char.ofNat 0x69, Char.ofNat 0x302]
  | 0xEF => [Char.ofNat 0x69, Char.ofNat 0x308]
  | 0xF4 => [Char.ofNat 0x6F, Char.ofNat 0x302]
  | 0xF6 => [Char.ofNat 0x6F, Char.ofNat 0x308]
  | 0xFB => [Char.ofNat 0x75, Char.ofNat 0x302]
  | 0xFC => [Char.ofNat 0x75, Char.ofNat 0x308]
  | _ => [c]

/-- `re.sub(" +", " ", text)`: collapse runs of ordinary spaces to a single
space.  The flag records whether the previous character was a space. -/
def collapseSpacesAux : List Char → Bool → List Char
  | [], _ => []
  | c :: rest, prevSpace =>
    if c = ' ' then
      if prevSpace then collapseSpacesAux rest true
      else ' ' :: collapseSpacesAux rest true
    else c :: collapseSpacesAux rest false

def collapseSpaces (s : List Char) : List Char :=
  collapseSpacesAux s false

/-- The whitespace set of Python's default `str.strip()`. -/
def pyIsSpace (c : Char) : Bool :=
  c = ' ' || c = '\t' || c = '\n' || c = Char.ofNat 13 ||
  c = Char.ofNat 11 || c = Char.ofNat 12

/-- Python `str.strip()`. -/
def stripPy (s : List Char) : List Char :=
  ((s.dropWhile pyIsSpace).reverse.dropWhile pyIsSpace).reverse

/-- `clean_text` (generate_db_ryokans.py lines 27-52): replace non-breaking
spaces, NFKD-decompose, drop non-ASCII code points, replace `\n`/`\t` by
spaces and delete `\r`, collapse space runs, strip. -/
def clean_text (text : List Char) : List Char :=
  if text = [] then []
  else
    let t1 := text.map (fun c => if c.toNat = 0xA0 then ' ' else c)
    let t2 := (t1.map nfkdChar).flatten
    let t3 := t2.filter (fun c => c.toNat ≤ 127)
    let t4 := t3.map (fun c => if c = '\n' then ' ' else c)
    let t5 := t4.filter (fun c => c ≠ Char.ofNat 13)
    let t6 := t5.map (fun c => if c = '\t' then ' ' else c)
    stripPy (collapseSpaces t6)

/-! ### Price extraction (generate_db_ryokans.py lines 74-91) -/

/-- `text.replace(",", "")`. -/
def stripCommas (s : List Char) : List Char :=
  s.filter (fun c => c ≠ ',')

/-- `re.findall(r"\d+", text)`: the maximal runs of ASCII digits, in source
order.  The accumulator holds the current run reversed. -/
def digitRunsAux : List Char → List Char → List (List Char)
  | [], acc => if acc = [] then [] else [acc.reverse]
  | c :: rest, acc =>
    if c.isDigit then digitRunsAux rest (c :: acc)
    else if acc = [] then digitRunsAux rest []
    else acc.reverse :: digitRunsAux rest []

def digitRuns (s : List Char) : List (List Char) :=
  digitRunsAux s []

/-- Python `int(·)` on a string of decimal digits. -/
def digitsToNat (ds : List Char) : Nat :=
  ds.foldl (fun n c => 10 * n + (c.toNat - 48)) 0

/-- Lines 84-91: strip thousands separators, find all numeric runs; with two
or more runs the first two become `(price_min, price_max)`, with exactly one
run both fields are that value, otherwise both stay `0`. -/
def extractPrices (priceText : List Char) : Nat × Nat :=
  match digitRuns (stripCommas priceText) with
  | a :: b :: _ => (digitsToNat a, digitsToNat b)
  | [a] => (digitsToNat a, digitsToNat a)
  | [] => (0, 0)

/-! ### Substring primitives (Python's `in`, `split`, `replace`, `lower`) -/

/-- Does `pat` occur at the very start of `s`? -/
def isPrefixList : List Char → List Char → Bool
  | [], _ => true
  | _ :: _, [] => false
  | p :: ps, c :: cs => p = c && isPrefixList ps cs

/-- Python `pat in s` on strings: does `pat` occur as a contiguous substring? -/
def containsSub (pat : List Char) : List Char → Bool
  | [] => isPrefixList pat []
  | c :: cs => isPrefixList pat (c :: cs) || containsSub pat cs

/-- `s.split(pat)[0]`: the text before the first occurrence of `pat`
(`pat` nonempty), the whole text when `pat` does not occur. -/
def beforeSub (pat : List Char) : List Char → List Char
  | [] => []
  | c :: cs => if isPrefixList pat (c :: cs) then [] else c :: beforeSub pat cs

/-- `s.replace(pat, "")`: delete every (left-to-right, non-overlapping)
occurrence of `pat`. -/
def removeSub (pat : List Char) : List Char → List Char
  | [] => []
  | c :: cs =>
    if h : pat.length ≠ 0 ∧ isPrefixList pat (c :: cs) = true then
      removeSub pat ((c :: cs).drop pat.length)
    else
      c :: removeSub pat cs
termination_by s => s.length
decreasing_by
  · simp only [List.length_drop, List.length_cons]
    omega
  · simp only [List.length_cons]
    omega

/-- Python `str.lower()` (the labels exercised here are ASCII). -/
def lowerL (s : List Char) : List Char :=
  s.map Char.toLower

/-- Python `str.isdigit()`: nonempty and all (ASCII) digits. -/
def pyIsDigit (s : List Char) : Bool :=
  !s.isEmpty && s.all Char.isDigit

/-! ### Rental-tub classification (generate_db_ryokans.py lines 110-132) -/

structure RentalFlags where
  rental_open : Bool
  rental_indoor : Bool
  rental_both : Bool
deriving DecidableEq, Repr

/-- Lines 122-125: `dd = dl.find("dd").text.strip()`, then
`count = int(dd) if dd.isdigit() else 0`. -/
def pyCountOf (ddRaw : List Char) : Nat :=
  let dd := stripPy ddRaw
  if pyIsDigit dd then digitsToNat dd else 0

/-- One iteration of the `for dl in dls` loop body (lines 121-132): lower the
`dt` label, parse the `dd` count, and assign exactly one flag (or none) by the
three mutually exclusive substring tests. -/
def rentalStep (fl : RentalFlags) (dtRaw ddRaw : List Char) : RentalFlags :=
  let dt := lowerL dtRaw
  let count := pyCountOf ddRaw
  if containsSub ("open-air tubs").data dt && !(containsSub ("indoor").data dt) then
    { fl with rental_open := decide (0 < count) }
  else if containsSub ("indoor tubs").data dt && !(containsSub ("open-air").data dt) then
    { fl with rental_indoor := decide (0 < count) }
  else if containsSub ("indoor and outdoor").data dt then
    { fl with rental_both := decide (0 < count) }
  else fl

/-- The whole scan over the `(dt, dd)` pairs of every definition list under a
"Rental" header, in document order, starting from all-false flags. -/
def rentalScan (pairs : List (List Char × List Char)) : RentalFlags :=
  pairs.foldl (fun fl p => rentalStep fl p.1 p.2) ⟨false, false, false⟩

/-- The category a label is routed to, read off the branch conditions of
`rentalStep`; `none` when no branch fires. -/
inductive RentalCat
  | rOpen
  | rIndoor
  | rBoth
deriving DecidableEq, Repr

def routeOf (dtRaw : List Char) : Option RentalCat :=
  let dt := lowerL dtRaw
  if containsSub ("open-air tubs").data dt && !(containsSub ("indoor").data dt) then
    some RentalCat.rOpen
  else if containsSub ("indoor tubs").data dt && !(containsSub ("open-air").data dt) then
    some RentalCat.rIndoor
  else if containsSub ("indoor and outdoor").data dt then
    some RentalCat.rBoth
  else none

def flagOf : RentalCat → RentalFlags → Bool
  | RentalCat.rOpen, fl => fl.rental_open
  | RentalCat.rIndoor, fl => fl.rental_indoor
  | RentalCat.rBoth, fl => fl.rental_both

/-! ### Geocode resolver

`generate_db_ryokans.py` line 200 calls `locator.get_coordinates(name,
location)` on the `RyokanLocator` imported from `ryokan_gps` (line 10), but
`src/ryokan_gps.py` does not define that class — only a caller is under
`src/`, so the resolver is modelled from the spec (§4.3).  A provider call is
a function from the query string to an optional coordinate pair; `none`
covers both "no match" and a caught provider exception, which §4.3 treats
identically (fall through to the next strategy). -/

/-- The two providers of §4.3: `primary` is the strict one (≥1.1s spacing),
`secondary` the permissive one (≥0.5s).  Rate limiting is a timing property
with no observable effect on the returned data, so it is not embedded. -/
inductive Provider
  | primary
  | secondary
deriving DecidableEq, Repr

/-- Modelled from the spec: the four ordered (provider, query) strategies of
§4.3 — address on the strict provider, "name, address" on the permissive
provider, "name Japan" on the permissive provider, "name Japan" on the
strict provider. -/
def strategies (name address : List Char) : List (Provider × List Char) :=
  [(Provider.primary, address),
   (Provider.secondary, name ++ (", ").data ++ address),
   (Provider.secondary, name ++ (" Japan").data),
   (Provider.primary, name ++ (" Japan").data)]

/-- Modelled from the spec: try each strategy in order, short-circuiting on
the first usable coordinate pair.  Besides the result, the list of
strategies actually attempted is returned, in the order they were issued. -/
def runStrategies (g : Provider → List Char → Option (Int × Int)) :
    List (Provider × List Char) → Option (Int × Int) × List (Provider × List Char)
  | [] => (none, [])
  | s :: rest =>
    match g s.1 s.2 with
    | some c => (some c, [s])
    | none => ((runStrategies g rest).1, s :: (runStrategies g rest).2)

/-- Modelled from the spec: `RyokanLocator.get_coordinates(name, address)`,
whose definition is missing from `src/`. -/
def get_coordinates (g : Provider → List Char → Option (Int × Int))
    (name address : List Char) : Option (Int × Int) × List (Provider × List Char) :=
  runStrategies g (strategies name address)

/-! ### The geocoding resume pass (`ryokan_gps.py`) -/

/-- `clean_address` (ryokan_gps.py lines 14-23):
`address.replace("Show map", "").strip()`. -/
def clean_address (address : List Char) : List Char :=
  stripPy (removeSub ("Show map").data address)

/-- One row of the persisted catalog as `fetch_gps_data` sees it; only the
columns that function reads or writes are embedded.  `none` models a NaN
coordinate cell. -/
structure GpsRow where
  name : List Char
  location : List Char
  lat : Option Int
  lon : Option Int
deriving DecidableEq, Repr

/-- The per-row body of `fetch_gps_data`'s loop (ryokan_gps.py lines 66-93):
strategy 1 geocodes the cleaned address when nonempty, strategy 2 geocodes
"{name} Japan" when strategy 1 produced nothing and the name is nonempty;
on success both coordinate cells are written.  `g` is the rate-limited
`geocode` callable; `none` covers both "no match" and a caught exception. -/
def resolveRow (g : List Char → Option (Int × Int)) (row : GpsRow) : GpsRow :=
  let address := clean_address row.location
  let loc1 : Option (Int × Int) := if address ≠ [] then g address else none
  let loc2 : Option (Int × Int) :=
    match loc1 with
    | some l => some l
    | none => if row.name ≠ [] then g (row.name ++ (" Japan").data) else none
  match loc2 with
  | some c => { row with lat := some c.1, lon := some c.2 }
  | none => row

/-- Is the `lat` cell of row `i` missing (the `df["lat"].isna()` mask)? -/
def latMissingAt (df : List GpsRow) (i : Nat) : Bool :=
  match df[i]? with
  | some r => r.lat.isNone
  | none => false

/-- One iteration over a candidate row index: rows taken from the original
frame (the mask and `rows_to_process` are computed before the loop), updates
applied to the accumulating frame at the same index.  The second component
accumulates the rows actually handed to the geocoder. -/
def gpsStep (g : List Char → Option (Int × Int)) (df : List GpsRow)
    (p : List GpsRow × List GpsRow) (i : Nat) : List GpsRow × List GpsRow :=
  match df[i]? with
  | some row =>
    if row.lat.isNone then (p.1.set i (resolveRow g row), p.2 ++ [row]) else p
  | none => p

/-- `fetch_gps_data` (ryokan_gps.py lines 54-96), instrumented: the updated
frame together with the trace of rows for which geocoding was attempted. -/
def fetch_gps_data (g : List Char → Option (Int × Int)) (df : List GpsRow) :
    List GpsRow × List GpsRow :=
  (List.range df.length).foldl (gpsStep g df) (df, [])

/-- The observable save/attempt schedule of `fetch_gps_data` (lines 64-105):
one attempt per masked row, a progressive save whenever the processed row's
frame index is divisible by 10 (`if index % 10 == 0`), and a final save. -/
inductive GpsEvent
  | attempt (i : Nat)
  | save
deriving DecidableEq, Repr

def isGpsSave : GpsEvent → Bool
  | GpsEvent.save => true
  | _ => false

def gpsEvents (df : List GpsRow) : List GpsEvent :=
  (((List.range df.length).filter (fun i => latMissingAt df i)).foldl
    (fun evs i =>
      evs ++ GpsEvent.attempt i :: (if i % 10 = 0 then [GpsEvent.save] else []))
    []) ++ [GpsEvent.save]

/-! ### The open-air-rooms pattern (generate_db_ryokans.py lines 98-100)

`re.search(r"Rooms with open-air.*?:.*?(\d+)", text, re.IGNORECASE)`.
`.` does not match a newline, so a match lives on one line; the lazy parts
take the first `:` after the literal and the first digit run after that
colon, and if either is missing before the end of the line the engine moves
the match start one character right.  (Backtracking to a later colon on the
same line cannot help: the digits searched after it are a subset of those
already searched.) -/

/-- Case-insensitive literal match at the start of the text. -/
def matchCI : List Char → List Char → Bool
  | [], _ => true
  | _ :: _, [] => false
  | p :: ps, c :: cs => Char.toLower c = p && matchCI ps cs

/-- After the colon: the first digit run before the end of the line, as the
captured group's integer value. -/
def roomsDigits : List Char → Option Nat
  | [] => none
  | c :: cs =>
    if c = '\n' then none
    else if c.isDigit then some (digitsToNat ((c :: cs).takeWhile Char.isDigit))
    else roomsDigits cs

/-- After the literal: find the first `:` before the end of the line, then
the digits. -/
def roomsColon : List Char → Option Nat
  | [] => none
  | c :: cs =>
    if c = '\n' then none
    else if c = ':' then roomsDigits cs
    else roomsColon cs

def roomsLit : List Char := ("rooms with open-air").data

/-- The whole `re.search`: scan match-start positions left to right. -/
def roomsSearch : List Char → Option Nat
  | [] => none
  | c :: cs =>
    if matchCI roomsLit (c :: cs) then
      match roomsColon ((c :: cs).drop roomsLit.length) with
      | some n => some n
      | none => roomsSearch cs
    else roomsSearch cs

/-! ### Rating parsing (generate_db_ryokans.py lines 134-169) -/

/-- `re.search(r"([\d\.]+)", alt_text)`: the first maximal run of digits and
dots. -/
def isFloatChar (c : Char) : Bool :=
  c.isDigit || c = '.'

def firstFloatToken : List Char → Option (List Char)
  | [] => none
  | c :: cs =>
    if isFloatChar c then some (c :: cs.takeWhile isFloatChar)
    else firstFloatToken cs

/-- Python `float(·)` on a token of digits and dots, as an exact rational;
`none` models the `ValueError` raised on tokens such as `"."` or
`"4.5.1"` (caught by the surrounding `try`, leaving the rating at 0.0). -/
def pyFloatOfToken (t : List Char) : Option ℚ :=
  let intPart := t.takeWhile Char.isDigit
  let rest := t.drop intPart.length
  match rest with
  | [] => if intPart = [] then none else some ((digitsToNat intPart : ℚ))
  | c :: frac =>
    if c = '.' && frac.all Char.isDigit then
      if intPart = [] && frac = [] then none
      else some ((digitsToNat intPart : ℚ) + (digitsToNat frac : ℚ) / ((10 : ℚ) ^ frac.length))
    else none

/-- `if widget_src.startswith("//"): widget_src = "https:" + widget_src`
(lines 144-145). -/
def widgetUrl (s : List Char) : List Char :=
  if isPrefixList ("//").data s then ("https:").data ++ s else s

/-! ### The listing document model (`get_ryokan_details`,
generate_db_ryokans.py lines 55-222)

Each structure mirrors exactly the BeautifulSoup accesses the code performs;
an `Option` field is a lookup (`find`, `select_one`, `find_parent`,
`get("src")`) that can come back `None`.  Text fields carry the `.text` /
`.get_text()` of the found tag. -/

/-- `price_div.find("p")` and, inside it, `find("span")` with its text. -/
structure PTag where
  span : Option (List Char)
deriving DecidableEq, Repr

structure PriceDiv where
  p : Option PTag
deriving DecidableEq, Repr

/-- `soup.select_one("#tit-price")` with its `find_parent("div")`. -/
structure PriceSection where
  parentDiv : Option PriceDiv
deriving DecidableEq, Repr

/-- `soup.select_one(".ryokan-text .content")`: its `get_text()` and its
first `<p>`'s text. -/
structure ContentDiv where
  text : List Char
  firstP : Option (List Char)
deriving DecidableEq, Repr

/-- `private_sec.find_parent("div")` with its first `<dl>`'s text. -/
structure PrivateParentDiv where
  dl : Option (List Char)
deriving DecidableEq, Repr

structure PrivateSec where
  parentDiv : Option PrivateParentDiv
deriving DecidableEq, Repr

/-- One `<dl>` under a `.detail-private` block: `find("dt")` / `find("dd")`
texts. -/
structure DlPair where
  dt : Option (List Char)
  dd : Option (List Char)
deriving DecidableEq, Repr

structure DetailPrivate where
  header : Option (List Char)
  dls : List DlPair
deriving DecidableEq, Repr

/-- The TripAdvisor iframe: its `src` attribute (`get("src")` may be
`None`). -/
structure TaIframe where
  src : Option (List Char)
deriving DecidableEq, Repr

/-- `trans_tag.find_parent("article")` with the texts of its `<p>` tags. -/
structure TransArticle where
  ps : List (List Char)
deriving DecidableEq, Repr

structure RyokanDoc where
  h1 : Option (List Char)
  addrTag : Option (List Char)
  priceSection : Option PriceSection
  contentDiv : Option ContentDiv
  privateSec : Option PrivateSec
  detailPrivates : List DetailPrivate
  taIframe : Option TaIframe
  tagsSection : Option (List (List Char))
  transTag : Option (Option TransArticle)
deriving DecidableEq, Repr

/-- The record of lines 202-218.  `tags` keeps the extracted sequence
underlying the serialized `str(tags)`; the rating is the exact rational
behind the parsed float. -/
structure RyokanRecord where
  name : List Char
  location : List Char
  price_range_min : Nat
  price_range_max : Nat
  room_with_open_air_bath : Nat
  rental_open_air_tubs : Bool
  rental_indoor_tubs : Bool
  rental_both_indoor_outdoor_tubs : Bool
  tripadvisor_rating : ℚ
  tags : List (List Char)
  description : List Char
  transportation : List Char
  lat : Option Int
  lon : Option Int
  url : List Char
deriving DecidableEq, Repr

/-- Price block (lines 74-91).  When the parent div exists but has no `<p>`,
`price_div.find("p").find("span")` is `None.find(...)`: an
`AttributeError`. -/
def pricesOf (soup : RyokanDoc) : Except Unit (Nat × Nat) :=
  match soup.priceSection with
  | none => Except.ok (0, 0)
  | some sec =>
    match sec.parentDiv with
    | none => Except.ok (0, 0)
    | some dv =>
      match dv.p with
      | none => Except.error ()
      | some pt =>
        match pt.span with
        | none => Except.ok (0, 0)
        | some spanText => Except.ok (extractPrices spanText)

/-- Open-air-room count (lines 93-108).  When `#tit-private-use` exists but
`find_parent("div")` is `None`, `.find("dl")` on it raises. -/
def roomsOf (soup : RyokanDoc) : Except Unit Nat :=
  match soup.contentDiv with
  | none => Except.ok 0
  | some cd =>
    match roomsSearch cd.text with
    | some n => Except.ok n
    | none =>
      match soup.privateSec with
      | none => Except.ok 0
      | some ps =>
        match ps.parentDiv with
        | none => Except.error ()
        | some pd =>
          match pd.dl with
          | none => Except.ok 0
          | some dlText =>
            Except.ok (if containsSub ("Available").data dlText then 1 else 0)

/-- The definition lists scanned by the rental loop: every `<dl>` of every
`.detail-private` block whose `<h3>` text contains "Rental", in document
order (lines 115-120). -/
def rentalDlsOf (soup : RyokanDoc) : List DlPair :=
  ((soup.detailPrivates.filter (fun d =>
      match d.header with
      | some h => containsSub ("Rental").data h
      | none => false)).map (fun d => d.dls)).flatten

/-- The rental loop in exception-aware form: `dl.find("dt").text` (and
`.find("dd").text`) raise when the tag is missing. -/
def rentalStepsE : List DlPair → RentalFlags → Except Unit RentalFlags
  | [], fl => Except.ok fl
  | pr :: rest, fl =>
    match pr.dt, pr.dd with
    | some dt, some dd => rentalStepsE rest (rentalStep fl dt dd)
    | _, _ => Except.error ()

def rentalOf (soup : RyokanDoc) : Except Unit RentalFlags :=
  rentalStepsE (rentalDlsOf soup) ⟨false, false, false⟩

/-- TripAdvisor rating (lines 134-169).  `net` is the widget fetch-and-parse
collaborator: `Except.error` a raised/timed-out fetch, `ok none` a non-200
response or a widget with no "of 5 bubbles" image, `ok (some alt)` the
found image's alt text.  An iframe whose `src` attribute is absent raises at
`widget_src.startswith` — outside the inner `try`. -/
def ratingOf (net : List Char → Except Unit (Option (List Char)))
    (soup : RyokanDoc) : Except Unit ℚ :=
  match soup.taIframe with
  | none => Except.ok 0
  | some ifr =>
    match ifr.src with
    | none => Except.error ()
    | some s =>
      match net (widgetUrl s) with
      | Except.error _ => Except.ok 0
      | Except.ok none => Except.ok 0
      | Except.ok (some altText) =>
        match firstFloatToken altText with
        | none => Except.ok 0
        | some tok =>
          match pyFloatOfToken tok with
          | some q => Except.ok q
          | none => Except.ok 0

/-- `p.text.strip().startswith("(")` (line 195). -/
def startsWithParen (t : List Char) : Bool :=
  isPrefixList [ '('] (stripPy t)

/-- `" | ".join(lines)`. -/
def joinSep (sep : List Char) : List (List Char) → List Char
  | [] => []
  | [x] => x
  | x :: y :: rest => x ++ sep ++ joinSep sep (y :: rest)

/-- The body of `get_ryokan_details`'s `try` block (lines 56-218), its
result an `Except`: `error` is an uncaught Python exception.  `g` is the
geocoding backend of the spec-modelled `RyokanLocator`, `net` the widget
fetch. -/
def extractBody (g : Provider → List Char → Option (Int × Int))
    (net : List Char → Except Unit (Option (List Char)))
    (url : List Char) (soup : RyokanDoc) : Except Unit RyokanRecord :=
  let name := match soup.h1 with
    | some t => clean_text t
    | none => ("Unknown").data
  let location := match soup.addrTag with
    | some t => clean_text (beforeSub ("Show map").data t)
    | none => ("Unknown").data
  match pricesOf soup with
  | Except.error e => Except.error e
  | Except.ok pr =>
    match roomsOf soup with
    | Except.error e => Except.error e
    | Except.ok rooms =>
      match rentalOf soup with
      | Except.error e => Except.error e
      | Except.ok fl =>
        match ratingOf net soup with
        | Except.error e => Except.error e
        | Except.ok rating =>
          let tags := match soup.tagsSection with
            | some anchors => anchors.map clean_text
            | none => []
          let description := match soup.contentDiv with
            | none => []
            | some cd =>
              match cd.firstP with
              | some t => clean_text t
              | none => []
          let transportation := match soup.transTag with
            | none => []
            | some none => []
            | some (some art) =>
              joinSep (" | ").data ((art.ps.filter startsWithParen).map clean_text)
          let coords := (get_coordinates g name location).1
          Except.ok
            { name := name
              location := location
              price_range_min := pr.1
              price_range_max := pr.2
              room_with_open_air_bath := rooms
              rental_open_air_tubs := fl.rental_open
              rental_indoor_tubs := fl.rental_indoor
              rental_both_indoor_outdoor_tubs := fl.rental_both
              tripadvisor_rating := rating
              tags := tags
              description := description
              transportation := transportation
              lat := coords.map (fun c => c.1)
              lon := coords.map (fun c => c.2)
              url := url }

/-- `get_ryokan_details` (lines 55-222).  `resp = none` is a non-200 status;
the outer `try`/`except` turns any raised exception into `None`. -/
def get_ryokan_details (g : Provider → List Char → Option (Int × Int))
    (net : List Char → Except Unit (Option (List Char)))
    (url : List Char) (resp : Option RyokanDoc) : Option RyokanRecord :=
  match resp with
  | none => none
  | some soup =>
    match extractBody g net url soup with
    | Except.ok r => some r
    | Except.error _ => none

/-! ### The orchestrator (`main`, generate_db_ryokans.py lines 225-288) -/

/-- The link filter of lines 248-254: keep a `box-link` href iff it contains
`/ryokan/` and contains neither `page/` nor `/guide/`. -/
def keepLink (link : List Char) : Bool :=
  containsSub ("/ryokan/").data link &&
  !(containsSub ("page/").data link) &&
  !(containsSub ("/guide/").data link)

/-- `urls_to_scrape` for one index page (lines 244-254): each article
contributes its `box-link` href, if any, filtered by `keepLink`, in document
order. -/
def urlsToScrape (articles : List (Option (List Char))) : List (List Char) :=
  articles.filterMap (fun a =>
    match a with
    | some link => if keepLink link then some link else none
    | none => none)

/-- The accumulation of `all_ryokans` over the whole run (lines 226-264):
for each page in order, every discovered link is scraped and each non-`None`
record appended.  `web` maps a listing URL to its fetched document. -/
def scrapeRun (g : Provider → List Char → Option (Int × Int))
    (net : List Char → Except Unit (Option (List Char)))
    (web : List Char → Option RyokanDoc)
    (pages : List (List (Option (List Char)))) : List RyokanRecord :=
  pages.foldl
    (fun acc pg =>
      acc ++ (urlsToScrape pg).filterMap (fun l => get_ryokan_details g net l (web l)))
    []

/-- The observable process/save schedule of `main` (lines 230-282): listings
processed page by page, a progressive save after every page whose 1-based
number is divisible by 5 (`if page_num % 5 == 0`), and a final save.  An
index page answering non-200 makes the loop `continue` past the save branch
(line 239); the model covers runs whose index pages all load. -/
inductive RunEvent
  | process (url : List Char)
  | save
deriving DecidableEq, Repr

def isSaveEv : RunEvent → Bool
  | RunEvent.save => true
  | _ => false

def mainEventsFrom : Nat → List (List (Option (List Char))) → List RunEvent
  | _, [] => []
  | n, pg :: rest =>
    ((urlsToScrape pg).map RunEvent.process) ++
      (if n % 5 = 0 then [RunEvent.save] else []) ++
      mainEventsFrom (n + 1) rest

def mainEvents (pages : List (List (Option (List Char)))) : List RunEvent :=
  mainEventsFrom 1 pages ++ [RunEvent.save]

/-! ### Concrete instances used by witnesses and counterexamples -/

/-- A geocoding backend that never finds anything. -/
def gNone : Provider → List Char → Option (Int × Int) := fun _ _ => none

/-- A widget fetch that always answers 200 with no rating image. -/
def netNone : List Char → Except Unit (Option (List Char)) := fun _ => Except.ok none

/-- A listing document in which every optional element is absent. -/
def docMin : RyokanDoc :=
  { h1 := none, addrTag := none, priceSection := none, contentDiv := none,
    privateSec := none, detailPrivates := [], taIframe := none,
    tagsSection := none, transTag := none }

/-- `docMin` with a price section whose parent `div` exists but contains no
`<p>`: `price_div.find("p")` is `None` and `.find("span")` on it raises. -/
def docPriceBroken : RyokanDoc :=
  { docMin with priceSection := some { parentDiv := some { p := none } } }

/-- The record `get_ryokan_details` produces from `docMin` (all defaults). -/
def recUnknown (url : List Char) : RyokanRecord :=
  { name := ("Unknown").data, location := ("Unknown").data,
    price_range_min := 0, price_range_max := 0, room_with_open_air_bath := 0,
    rental_open_air_tubs := false, rental_indoor_tubs := false,
    rental_both_indoor_outdoor_tubs := false, tripadvisor_rating := 0,
    tags := [], description := [], transportation := [],
    lat := none, lon := none, url := url }

/-- A backend succeeding exactly on the permissive provider's "name Japan"
query for the name `"A"`. -/
def gWitness : Provider → List Char → Option (Int × Int) :=
  fun p q =>
    if p = Provider.secondary ∧ q = ("A Japan").data then some (1, 2) else none

/-- Catalog rows for the resume-pass witness: one already resolved, one
missing. -/
def rowWith : GpsRow := { name := ("A").data, location := ("Addr").data, lat := some 1, lon := some 2 }

def rowWithout : GpsRow := { name := ("B").data, location := ("Addr2").data, lat := none, lon := none }

def dfW : List GpsRow := [rowWith, rowWithout]

def gGps : List Char → Option (Int × Int) := fun _ => some (3, 4)

/-- A catalog with a single unresolved row, sitting at frame index 0. -/
def dfOne : List GpsRow :=
  [{ name := ("N").data, location := ("L").data, lat := none, lon := none }]

/-- Two listing links that pass `keepLink`. -/
def lA : List Char := ("https://selected-ryokan.com/ryokan/a").data

def lB : List Char := ("https://selected-ryokan.com/ryokan/b").data

def webMin : List Char → Option RyokanDoc := fun _ => some docMin

/-- Two index pages both exposing the same listing link. -/
def pagesDup : List (List (Option (List Char))) := [[some lA], [some lA]]

/-- Four pages of two listings each: 8 listings, no page number divisible
by 5. -/
def runA : List (List (Option (List Char))) :=
  List.replicate 4 [some lA, some lB]

/-- Five pages of one listing each: the fifth page triggers the periodic
save. -/
def runB : List (List (Option (List Char))) :=
  List.replicate 5 [some lA]

/-! ## Helper lemmas -/

/-- One rental-loop iteration, read through `routeOf`: the flag of the routed
category is overwritten with `count > 0`, every other flag is kept. -/
theorem flagOf_rentalStep (fl : RentalFlags) (dt dd : List Char) (c : RentalCat) :
    flagOf c (rentalStep fl dt dd) =
      if routeOf dt = some c then decide (0 < pyCountOf dd) else flagOf c fl := by
  cases c <;>
    simp only [rentalStep, routeOf, flagOf] <;>
    split_ifs <;>
    simp_all [flagOf]

/-- The rental fold from an arbitrary starting flag state: each category's
final flag is decided by the last pair routed to it. -/
theorem rentalScan_last (c : RentalCat) (pairs : List (List Char × List Char))
    (fl : RentalFlags) :
    flagOf c (pairs.foldl (fun f p => rentalStep f p.1 p.2) fl) =
      match (pairs.filter (fun q => decide (routeOf q.1 = some c))).getLast? with
      | some q => decide (0 < pyCountOf q.2)
      | none => flagOf c fl := by
  induction pairs using List.reverseRecOn with
  | nil => simp
  | append_singleton ps p ih =>
    rw [List.foldl_append, List.foldl_cons, List.foldl_nil, List.filter_append]
    by_cases hr : routeOf p.1 = some c
    · simp [hr, flagOf_rentalStep, List.getLast?_concat]
    · simp [hr, flagOf_rentalStep, ih]

/-! ## C9 — text normalization scenario -/

/-- Claim C9 (confirmed): normalizing `"Kyoto Ryokan\néclat"` yields
exactly `"Kyoto Ryokan eclat"` — the non-breaking space becomes an ordinary
space, the accent is stripped without merging words, whitespace runs are
collapsed and the result carries no surrounding whitespace. -/
theorem C9_thm :
    clean_text (("Kyoto\u00A0Ryokan\n\u00E9clat").data) = ("Kyoto Ryokan eclat").data := by
  decide

/-! ## C6 — price-token extraction -/

/-- Claim C6 (confirmed): one numeric token makes both prices that value,
two or more make the first two `(price_min, price_max)` in source order, and
none leaves both at 0. -/
theorem C6_thm (t : List Char) (toks : List (List Char))
    (h : digitRuns (stripCommas t) = toks) :
    (toks = [] → extractPrices t = (0, 0)) ∧
    (∀ v, toks = [v] → extractPrices t = (digitsToNat v, digitsToNat v)) ∧
    (∀ a b rest, toks = a :: b :: rest →
      extractPrices t = (digitsToNat a, digitsToNat b)) := by
  subst h
  refine ⟨fun h0 => ?_, fun v hv => ?_, fun a b rest hab => ?_⟩
  · simp [extractPrices, h0]
  · simp [extractPrices, hv]
  · simp [extractPrices, hab]

theorem C6_witness :
    digitRuns (stripCommas (("From 10,000 to 20,000 yen").data)) =
      [("10000").data, ("20000").data] ∧
    extractPrices (("From 10,000 to 20,000 yen").data) =
      (digitsToNat (("10000").data), digitsToNat (("20000").data)) :=
  ⟨by decide, (C6_thm _ _ (by decide)).2.2 _ _ [] rfl⟩

/-! ## C4 — price ordering invariant -/

/-- Claim C4 (counterexample): a price container whose two tokens appear in
decreasing source order yields both fields non-zero with
`price_min > price_max`, so the claimed invariant fails "regardless of
order". -/
theorem C4_counterexample :
    extractPrices (("50,000 ~ 30,000 yen").data) = (50000, 30000) ∧
    ¬((extractPrices (("50,000 ~ 30,000 yen").data)).1 ≤
      (extractPrices (("50,000 ~ 30,000 yen").data)).2) := by
  constructor
  · decide
  · decide

/-- Claim C4 (amended): `price_min ≤ price_max` holds whenever the first two
numeric tokens of the container appear in non-decreasing order (and
unconditionally when the container yields at most one token). -/
theorem C4_amended_thm (t : List Char)
    (h : ∀ a b rest, digitRuns (stripCommas t) = a :: b :: rest →
      digitsToNat a ≤ digitsToNat b) :
    (extractPrices t).1 ≤ (extractPrices t).2 := by
  unfold extractPrices
  cases htoks : digitRuns (stripCommas t) with
  | nil => simp
  | cons a tail =>
    cases tail with
    | nil => simp
    | cons b rest => simpa using h a b rest htoks

theorem C4_witness :
    (extractPrices (("30,000 ~ 50,000 yen").data)).1 ≤
      (extractPrices (("30,000 ~ 50,000 yen").data)).2 :=
  C4_amended_thm _ (by
    intro a b rest heq
    rw [show digitRuns (stripCommas (("30,000 ~ 50,000 yen").data)) =
        [("30000").data, ("50000").data] from rfl] at heq
    cases heq
    decide)

/-! ## C5 — rental-label routing -/

/-- Claim C5 (counterexample): the label `"Open-air and indoor tubs"`
contains both `"open-air"` and `"indoor"` and carries a positive count, yet
it is routed to none of the three categories — in particular not to the
combined one — leaving all flags untouched. -/
theorem C5_counterexample :
    containsSub (("open-air").data) (lowerL (("Open-air and indoor tubs").data)) = true ∧
    containsSub (("indoor").data) (lowerL (("Open-air and indoor tubs").data)) = true ∧
    0 < pyCountOf (("2").data) ∧
    rentalStep ⟨false, false, false⟩ (("Open-air and indoor tubs").data) (("2").data) =
      ⟨false, false, false⟩ := by
  refine ⟨by decide, by decide, by decide, by decide⟩

/-- Claim C5 (amended): each label is routed to at most one category and the
chosen flag is set to `count > 0`; a label containing both `"open-air"` and
`"indoor"` never touches the open-air-only or indoor-only flag, and it sets
the combined flag iff it contains the verbatim substring
`"indoor and outdoor"` — otherwise it is routed to no category at all. -/
theorem C5_amended_thm (fl : RentalFlags) (dtRaw ddRaw : List Char)
    (h1 : containsSub (("open-air").data) (lowerL dtRaw) = true)
    (h2 : containsSub (("indoor").data) (lowerL dtRaw) = true) :
    (rentalStep fl dtRaw ddRaw).rental_open = fl.rental_open ∧
    (rentalStep fl dtRaw ddRaw).rental_indoor = fl.rental_indoor ∧
    (rentalStep fl dtRaw ddRaw).rental_both =
      (if containsSub (("indoor and outdoor").data) (lowerL dtRaw) = true
       then decide (0 < pyCountOf ddRaw) else fl.rental_both) := by
  simp only [rentalStep, h1, h2, Bool.not_true, Bool.and_false, if_false]
  split_ifs <;> simp_all

theorem C5_witness :
    containsSub (("open-air").data)
      (lowerL (("Open-air, indoor and outdoor tubs").data)) = true ∧
    containsSub (("indoor").data)
      (lowerL (("Open-air, indoor and outdoor tubs").data)) = true ∧
    ((rentalStep ⟨false, false, false⟩
        (("Open-air, indoor and outdoor tubs").data) (("3").data)).rental_open = false ∧
     (rentalStep ⟨false, false, false⟩
        (("Open-air, indoor and outdoor tubs").data) (("3").data)).rental_indoor = false ∧
     (rentalStep ⟨false, false, false⟩
        (("Open-air, indoor and outdoor tubs").data) (("3").data)).rental_both =
       (if containsSub (("indoor and outdoor").data)
            (lowerL (("Open-air, indoor and outdoor tubs").data)) = true
        then decide (0 < pyCountOf (("3").data)) else false)) :=
  ⟨by decide, by decide,
   C5_amended_thm ⟨false, false, false⟩ _ _ (by decide) (by decide)⟩

/-! ## C10 — last pair wins -/

/-- Claim C10 (confirmed): each category's final flag is `count > 0` of the
last pair routed to that category in document order (and `false` when no
pair routes there); assignment overwrites, so a later zero-count pair
cancels an earlier positive one instead of being or-combined. -/
theorem C10_thm (pairs : List (List Char × List Char)) (c : RentalCat) :
    flagOf c (rentalScan pairs) =
      match (pairs.filter (fun q => decide (routeOf q.1 = some c))).getLast? with
      | some q => decide (0 < pyCountOf q.2)
      | none => false := by
  have h0 : flagOf c ⟨false, false, false⟩ = false := by cases c <;> rfl
  rw [rentalScan, rentalScan_last, h0]

/-! ## C1 — geocode strategy chain -/

/-- Claim C1 (confirmed against the spec-modelled `RyokanLocator`): when the
first two strategies fail and the third succeeds, the resolver attempts
exactly the first three strategies, in priority order, short-circuits on the
third and never reaches the fourth. -/
theorem C1_thm (g : Provider → List Char → Option (Int × Int))
    (name address : List Char) (c : Int × Int)
    (h1 : g Provider.primary address = none)
    (h2 : g Provider.secondary (name ++ (", ").data ++ address) = none)
    (h3 : g Provider.secondary (name ++ (" Japan").data) = some c) :
    get_coordinates g name address = (some c, (strategies name address).take 3) := by
  simp only [get_coordinates, strategies, runStrategies, List.take]
  rw [h1, h2, h3]

theorem C1_witness :
    get_coordinates gWitness (("A").data) (("B").data) =
      (some (1, 2), (strategies (("A").data) (("B").data)).take 3) :=
  C1_thm gWitness _ _ _ (by decide) (by decide) (by decide)

/-! ## C2 — resume skips resolved records -/

/-- The trace component of the geocoding fold: the rows handed to the
geocoder are exactly the masked rows, in frame order. -/
theorem gps_trace (g : List Char → Option (Int × Int)) (df : List GpsRow) :
    ∀ (idxs : List Nat) (p : List GpsRow × List GpsRow),
      (idxs.foldl (gpsStep g df) p).2 =
        p.2 ++ idxs.filterMap (fun i =>
          match df[i]? with
          | some r => if r.lat.isNone then some r else none
          | none => none)
  | [], p => by simp
  | i :: is, p => by
    rw [List.foldl_cons, gps_trace g df is _, List.filterMap_cons]
    cases hi : df[i]? with
    | none => simp [gpsStep, hi]
    | some r =>
      by_cases hlat : r.lat.isNone = true
      · simp [gpsStep, hi, hlat]
      · simp [gpsStep, hi, hlat]

/-- Reading the mask over `range` back as a filter of the frame itself. -/
theorem range_filterMap_rows (l : List GpsRow) :
    (List.range l.length).filterMap (fun i =>
      match l[i]? with
      | some r => if r.lat.isNone then some r else none
      | none => none) = l.filter (fun r => r.lat.isNone) := by
  induction l with
  | nil => simp
  | cons r rs ih =>
    rw [List.length_cons, List.range_succ_eq_map, List.filterMap_cons,
      List.filterMap_map]
    have hcomp : ((fun i =>
        match (r :: rs)[i]? with
        | some x => if x.lat.isNone then some x else none
        | none => none) ∘ Nat.succ) = (fun i =>
          match rs[i]? with
          | some x => if x.lat.isNone then some x else none
          | none => none) := by
      funext i
      simp
    rw [hcomp, ih]
    by_cases hlat : r.lat.isNone = true
    · simp [hlat]
    · simp [hlat]

/-- A row whose `lat` cell is present is never written by the fold. -/
theorem gps_keep (g : List Char → Option (Int × Int)) (df : List GpsRow)
    (i : Nat) (row : GpsRow) (hrow : df[i]? = some row)
    (hlat : row.lat.isSome = true) :
    ∀ (idxs : List Nat) (p : List GpsRow × List GpsRow),
      p.1[i]? = some row → (idxs.foldl (gpsStep g df) p).1[i]? = some row
  | [], p, hp => hp
  | j :: js, p, hp => by
    rw [List.foldl_cons]
    apply gps_keep g df i row hrow hlat js
    cases hj : df[j]? with
    | none => simpa [gpsStep, hj] using hp
    | some r =>
      by_cases hl : r.lat.isNone = true
      · have hne : j ≠ i := by
          intro he
          subst he
          rw [hrow] at hj
          cases hj
          rw [Option.isNone_iff_eq_none] at hl
          rw [hl] at hlat
          cases hlat
        simp only [gpsStep, hj, hl, if_true]
        rw [List.getElem?_set_ne hne]
        exact hp
      · simpa [gpsStep, hj, hl] using hp

/-- Claim C2 (confirmed): on resume, geocoding is attempted for exactly the
rows whose coordinate is absent, and every row already carrying a resolved
coordinate is left unchanged in place. -/
theorem C2_thm (g : List Char → Option (Int × Int)) (df : List GpsRow)
    (i : Nat) (row : GpsRow) (hrow : df[i]? = some row)
    (hlat : row.lat.isSome = true) :
    (fetch_gps_data g df).2 = df.filter (fun r => r.lat.isNone) ∧
    (fetch_gps_data g df).1[i]? = some row := by
  constructor
  · rw [fetch_gps_data, gps_trace, range_filterMap_rows, List.nil_append]
  · exact gps_keep g df i row hrow hlat (List.range df.length) (df, []) hrow

theorem C2_witness :
    dfW[0]? = some rowWith ∧ rowWith.lat.isSome = true ∧
    ((fetch_gps_data gGps dfW).2 = dfW.filter (fun r => r.lat.isNone) ∧
     (fetch_gps_data gGps dfW).1[0]? = some rowWith) :=
  ⟨rfl, rfl, C2_thm gGps dfW 0 rowWith rfl rfl⟩

/-! ## C3 — identifier uniqueness -/

/-- A successful extraction fixes the `url` field to the input URL and the
`location` field to the address branch's value. -/
theorem extractBody_ok_fields (g : Provider → List Char → Option (Int × Int))
    (net : List Char → Except Unit (Option (List Char)))
    (url : List Char) (soup : RyokanDoc) (r : RyokanRecord)
    (h : extractBody g net url soup = Except.ok r) :
    r.url = url ∧
    r.location = (match soup.addrTag with
      | some t => clean_text (beforeSub (("Show map").data) t)
      | none => ("Unknown").data) := by
  simp only [extractBody] at h
  split at h
  · exact Except.noConfusion h
  split at h
  · exact Except.noConfusion h
  split at h
  · exact Except.noConfusion h
  split at h
  · exact Except.noConfusion h
  injection h with h2
  subst h2
  exact ⟨rfl, rfl⟩

/-- A record returned by `get_ryokan_details` carries the URL it was asked
for. -/
theorem url_of_details (g : Provider → List Char → Option (Int × Int))
    (net : List Char → Except Unit (Option (List Char)))
    (l : List Char) (resp : Option RyokanDoc) (r : RyokanRecord)
    (h : get_ryokan_details g net l resp = some r) : r.url = l := by
  cases resp with
  | none => exact Option.noConfusion h
  | some soup =>
    simp only [get_ryokan_details] at h
    split at h
    · injection h with h2
      subst h2
      exact (extractBody_ok_fields g net l soup _ (by assumption)).1
    · exact Option.noConfusion h

/-- The URLs of the records scraped from one page's links. -/
theorem links_map_url (g : Provider → List Char → Option (Int × Int))
    (net : List Char → Except Unit (Option (List Char)))
    (web : List Char → Option RyokanDoc) :
    ∀ (links : List (List Char)),
      (links.filterMap (fun l => get_ryokan_details g net l (web l))).map
          (fun r => r.url) =
        links.filter (fun l => (get_ryokan_details g net l (web l)).isSome)
  | [] => rfl
  | l :: ls => by
    rw [List.filterMap_cons, List.filter_cons]
    cases hd : get_ryokan_details g net l (web l) with
    | none => simpa [hd] using links_map_url g net web ls
    | some r =>
      have hurl : r.url = l := url_of_details g net l (web l) r hd
      simpa [hd, hurl] using links_map_url g net web ls

/-- The record-URL sequence of a whole run, from an arbitrary
accumulator. -/
theorem scrape_acc (g : Provider → List Char → Option (Int × Int))
    (net : List Char → Except Unit (Option (List Char)))
    (web : List Char → Option RyokanDoc) :
    ∀ (pages : List (List (Option (List Char)))) (acc : List RyokanRecord),
      ((pages.foldl
        (fun acc pg =>
          acc ++ (urlsToScrape pg).filterMap
            (fun l => get_ryokan_details g net l (web l))) acc).map
              (fun r => r.url)) =
        acc.map (fun r => r.url) ++
          ((pages.map urlsToScrape).flatten).filter
            (fun l => (get_ryokan_details g net l (web l)).isSome)
  | [], acc => by simp
  | pg :: ps, acc => by
    rw [List.foldl_cons, scrape_acc g net web ps _, List.map_cons,
      List.flatten_cons, List.filter_append, List.map_append,
      links_map_url g net web, List.append_assoc]

/-- Claim C3 (amended): the pipeline deduplicates nothing — the identifier
sequence of the accumulated records is exactly the sequence of discovered
links whose extraction succeeded, so an identifier discovered `k` times
(with successful extraction) appears `k` times, and identifiers are unique
only when no such link repeats. -/
theorem C3_amended_thm (g : Provider → List Char → Option (Int × Int))
    (net : List Char → Except Unit (Option (List Char)))
    (web : List Char → Option RyokanDoc)
    (pages : List (List (Option (List Char)))) :
    (scrapeRun g net web pages).map (fun r => r.url) =
      ((pages.map urlsToScrape).flatten).filter
        (fun l => (get_ryokan_details g net l (web l)).isSome) := by
  rw [scrapeRun, scrape_acc g net web pages []]
  rfl

/-- Claim C3 (counterexample): the same listing link discovered on two index
pages produces two records with the same identifier — the accumulated set is
not duplicate-free. -/
theorem C3_counterexample :
    (scrapeRun gNone netNone webMin pagesDup).map (fun r => r.url) = [lA, lA] ∧
    ¬((scrapeRun gNone netNone webMin pagesDup).map (fun r => r.url)).Nodup := by
  constructor
  · decide
  · decide

/-! ## C7 — extraction error handling -/

/-- Claim C7 (counterexample): a document missing the address element whose
price block has a parent `div` without a `<p>` makes the extractor raise
internally (`price_div.find("p").find("span")` on `None`); the outer
`except` swallows it and the listing yields no record at all — no
`"Unknown"` address and no defaulted typed record. -/
theorem C7_counterexample :
    docPriceBroken.addrTag = none ∧
    get_ryokan_details gNone netNone
      (("https://selected-ryokan.com/ryokan/x").data) (some docPriceBroken) = none := by
  exact ⟨rfl, rfl⟩

/-- Claim C7 (amended): no exception escapes the extractor (failures surface
as an absent record), and whenever extraction does return a record for a
document missing the address element, that record's address is `"Unknown"`;
but an unguarded per-field failure aborts the whole record instead of
degrading the field to its default. -/
theorem C7_amended_thm (g : Provider → List Char → Option (Int × Int))
    (net : List Char → Except Unit (Option (List Char)))
    (url : List Char) (soup : RyokanDoc) (r : RyokanRecord)
    (haddr : soup.addrTag = none)
    (h : get_ryokan_details g net url (some soup) = some r) :
    r.location = ("Unknown").data := by
  simp only [get_ryokan_details] at h
  split at h
  · injection h with h2
    subst h2
    have hf := (extractBody_ok_fields g net url soup _ (by assumption)).2
    rw [haddr] at hf
    exact hf
  · exact Option.noConfusion h

theorem C7_witness :
    docMin.addrTag = none ∧
    get_ryokan_details gNone netNone (("u").data) (some docMin) =
      some (recUnknown (("u").data)) ∧
    (recUnknown (("u").data)).location = ("Unknown").data :=
  ⟨rfl, rfl,
   C7_amended_thm gNone netNone (("u").data) docMin (recUnknown (("u").data)) rfl rfl⟩

/-! ## C8 — checkpoint cadence -/

/-- Process events contribute no saves. -/
theorem countP_process_map (links : List (List Char)) :
    (links.map RunEvent.process).countP isSaveEv = 0 := by
  induction links with
  | nil => rfl
  | cons l ls ih => simp [List.countP_cons, isSaveEv, ih]

/-- Saves emitted by the page loop started at page number `n ≥ 1`: the
number of multiples of 5 among the pages' numbers, a function of the page
count alone. -/
theorem mainEventsFrom_saves :
    ∀ (pages : List (List (Option (List Char)))) (n : Nat), 1 ≤ n →
      (mainEventsFrom n pages).countP isSaveEv =
        (n - 1 + pages.length) / 5 - (n - 1) / 5
  | [], n, _ => by simp [mainEventsFrom]
  | pg :: rest, n, hn => by
    rw [mainEventsFrom, List.countP_append, List.countP_append,
      countP_process_map, mainEventsFrom_saves rest (n + 1) (by omega)]
    have hsave : (if n % 5 = 0 then [RunEvent.save] else []).countP isSaveEv =
        if n % 5 = 0 then 1 else 0 := by
      by_cases h5 : n % 5 = 0 <;> simp [h5, List.countP_cons, isSaveEv]
    rw [hsave, List.length_cons]
    by_cases h5 : n % 5 = 0 <;> simp only [h5, if_true, if_false] <;> omega

/-- Saves emitted by the geocoding loop over a set of row indices. -/
theorem gpsEvents_saves :
    ∀ (idxs : List Nat) (evs : List GpsEvent),
      (idxs.foldl
        (fun evs i =>
          evs ++ GpsEvent.attempt i :: (if i % 10 = 0 then [GpsEvent.save] else []))
        evs).countP isGpsSave =
        evs.countP isGpsSave + (idxs.filter (fun i => decide (i % 10 = 0))).length
  | [], evs => by simp
  | i :: is, evs => by
    rw [List.foldl_cons, gpsEvents_saves is _, List.countP_append, List.filter_cons]
    by_cases h10 : i % 10 = 0 <;>
      simp [h10, List.countP_cons, isGpsSave] <;> omega

/-- Claim C8 (counterexample): a run of 4 pages × 2 listings processes 8
listings with no mid-run save at all, while a run of 5 pages × 1 listing
saves after 5 — the cadence is keyed to the page counter, not to any fixed
number of processed listings; and the geocoding pass over a single missing
row at frame index 0 saves right after its first attempt, not after 10. -/
theorem C8_counterexample :
    (mainEvents runA).countP (fun e => !(isSaveEv e)) = 8 ∧
    (mainEvents runA).countP isSaveEv = 1 ∧
    mainEvents runB =
      [RunEvent.process lA, RunEvent.process lA, RunEvent.process lA,
       RunEvent.process lA, RunEvent.process lA, RunEvent.save, RunEvent.save] ∧
    gpsEvents dfOne = [GpsEvent.attempt 0, GpsEvent.save, GpsEvent.save] := by
  refine ⟨by decide, by decide, by decide, by decide⟩

/-- Claim C8 (amended): the scraper saves after every 5th index page — the
save count is `⌊pages/5⌋` regardless of how many listings those pages hold —
plus one final save; the geocoding pass saves after processing a row whose
frame index is divisible by 10, plus one final save. -/
theorem C8_amended_thm (pages : List (List (Option (List Char))))
    (df : List GpsRow) :
    (mainEvents pages).countP isSaveEv = pages.length / 5 + 1 ∧
    (mainEvents pages).getLast? = some RunEvent.save ∧
    (gpsEvents df).countP isGpsSave =
      ((List.range df.length).filter
        (fun i => latMissingAt df i && decide (i % 10 = 0))).length + 1 ∧
    (gpsEvents df).getLast? = some GpsEvent.save := by
  refine ⟨?_, List.getLast?_concat _, ?_, List.getLast?_concat _⟩
  · rw [mainEvents, List.countP_append, mainEventsFrom_saves pages 1 (by omega)]
    simp [List.countP_cons, isSaveEv]
  · rw [gpsEvents, List.countP_append, gpsEvents_saves]
    rw [List.filter_filter]
    simp [List.countP_cons, isGpsSave, Bool.and_comm]
